import Mathlib

/-!
Verification development for the CamPay mobile-money CLI client.

The repository's `main.go` contains two concatenated variants of the same
program.  We embed both:

* `V1` — the first variant (lines 1–377): 60 poll attempts, status compared
  after `strings.ToUpper` only, inline error decoding that ignores
  `json.Unmarshal` failures, a `promptUser` that never re-prompts.
* `V2` — the second variant (lines 378–761): 40 poll attempts, status
  normalized by `strings.ToUpper(strings.TrimSpace(..))`, a shared
  `formatAPIError` with raw-body fallback, a `promptUser` that re-prompts
  on empty input, and phone-number normalization in `promptPhone`.

Strings are modelled over their character lists; Go's byte-level operations
agree with these on the ASCII data handled by the program.  Network calls
are modelled by passing the sequence of their outcomes explicitly, and the
poller additionally returns a trace of observable events (status-check
calls, log lines, sleeps).
-/

/-! ## String helpers (models of Go `strings` functions) -/

/-- Models `strings.ToUpper` (ASCII range, which is all the program compares). -/
def strToUpper (s : String) : String := ⟨s.data.map Char.toUpper⟩

/-- Models `strings.TrimSpace`: drop leading and trailing whitespace. -/
def trimString (s : String) : String :=
  ⟨((s.data.dropWhile Char.isWhitespace).reverse.dropWhile Char.isWhitespace).reverse⟩

/-- Models `strings.ReplaceAll(s, " ", "")`: remove every space character. -/
def stripSpaces (s : String) : String := ⟨s.data.filter (fun c => c ≠ ' ')⟩

/-- Models `strings.HasPrefix`. -/
def strStartsWith (p s : String) : Bool := p.data.isPrefixOf s.data

/-- Boolean substring test on character lists (used only to state that one
string occurs inside another). -/
def isSubChars (p : List Char) : List Char → Bool
  | [] => p.isEmpty
  | c :: cs => p.isPrefixOf (c :: cs) || isSubChars p cs

/-- Decimal value of a digit list, most significant first. -/
def digitsValue (cs : List Char) : Nat := cs.foldl (fun a c => a * 10 + (c.toNat - 48)) 0

/-- Models `strconv.Atoi` on a 64-bit platform: optional single sign, then a
non-empty run of decimal digits; any other character, an empty digit run, or
a value outside the `int64` range is an error (`none`). -/
def atoi (s : String) : Option Int :=
  match s.data with
  | [] => none
  | c :: rest =>
    let signNeg : Option Bool := if c = '-' then some true else if c = '+' then some false else none
    let digits : List Char := if signNeg.isSome then rest else c :: rest
    if digits.isEmpty then none
    else if digits.all Char.isDigit then
      let n : Nat := digitsValue digits
      let v : Int := if signNeg = some true then -(n : Int) else (n : Int)
      if v < -(2 ^ 63) ∨ v > 2 ^ 63 - 1 then none else some v
    else none

/-! ## Data model (request/response records from `main.go`) -/

/-- CamPay API error envelope (`ErrorResponse` in both variants). -/
structure ErrorResponse where
  code : String
  message : String
deriving DecidableEq, Repr

/-- Transaction status record (`TransactionResponse` in both variants).
`amount` is `float64` in Go; no claim inspects it. -/
structure TransactionResponse where
  reference : String
  externalReference : String
  status : String
  amount : Float
  currency : String
  operator : String
  code : String
  operatorReference : String
  description : String

/-- `CollectRequest` of the first variant: `amount` is a string. -/
structure V1.CollectRequest where
  amount : String
  currency : String
  «from» : String
  description : String
  externalReference : String
deriving DecidableEq, Repr

/-- `CollectRequest` of the second variant: `amount` is an int. -/
structure V2.CollectRequest where
  amount : Int
  currency : String
  «from» : String
  description : String
  externalReference : String
deriving DecidableEq, Repr

/-! ## Error-envelope decoding

`formatAPIError` and the inline handlers call `encoding/json.Unmarshal` on the
response body with target `ErrorResponse`.  We model that decoder restricted to
the grammar it is actually used on: a JSON object whose fields are string
valued (surrounded by optional whitespace).  Field names are matched
case-insensitively and unknown string fields are ignored, as `Unmarshal`
does; any body outside this grammar decodes to `none` (an `Unmarshal` error). -/

def lbrace : Char := Char.ofNat 123

def rbrace : Char := Char.ofNat 125

def skipWs (cs : List Char) : List Char := cs.dropWhile Char.isWhitespace

/-- Parse the body of a JSON string (opening quote already consumed),
handling the basic escape sequences. -/
def parseStringBody (acc : List Char) : List Char → Option (String × List Char)
  | [] => none
  | c :: cs =>
    if c = '"' then some (⟨acc.reverse⟩, cs)
    else if c = '\\' then
      match cs with
      | [] => none
      | e :: cs2 =>
        if e = '"' ∨ e = '\\' ∨ e = '/' then parseStringBody (e :: acc) cs2
        else if e = 'n' then parseStringBody ('\n' :: acc) cs2
        else if e = 't' then parseStringBody ('\t' :: acc) cs2
        else if e = 'r' then parseStringBody ('\r' :: acc) cs2
        else none
    else parseStringBody (c :: acc) cs

/-- Set an `ErrorResponse` field from a decoded key/value pair, matching the
JSON tag case-insensitively as `Unmarshal` does; unknown keys are ignored. -/
def assignField (er : ErrorResponse) (key value : String) : ErrorResponse :=
  let k := ⟨key.data.map Char.toLower⟩
  if k = "code" then { er with code := value }
  else if k = "message" then { er with message := value }
  else er

/-- Parse the fields of the object, positioned just after `{` or `,`. -/
def parseFields (fuel : Nat) (er : ErrorResponse) (cs : List Char) :
    Option (ErrorResponse × List Char) :=
  match fuel with
  | 0 => none
  | fuel + 1 =>
    match skipWs cs with
    | '"' :: rest =>
      match parseStringBody [] rest with
      | some (key, rest1) =>
        match skipWs rest1 with
        | ':' :: rest2 =>
          match skipWs rest2 with
          | '"' :: rest3 =>
            match parseStringBody [] rest3 with
            | some (value, rest4) =>
              let er := assignField er key value
              match skipWs rest4 with
              | ',' :: rest5 => parseFields fuel er rest5
              | d :: rest5 => if d = rbrace then some (er, rest5) else none
              | [] => none
            | none => none
          | _ => none
        | _ => none
      | none => none
    | _ => none

/-- Models `json.Unmarshal(body, &er)` for `er : ErrorResponse` on the
flat string-valued object grammar; `none` models a decode error. -/
def decodeErrorResponse (body : String) : Option ErrorResponse :=
  match skipWs body.data with
  | c :: rest =>
    if c = lbrace then
      match skipWs rest with
      | d :: rest1 =>
        if d = rbrace then
          if (skipWs rest1).isEmpty then some ⟨"", ""⟩ else none
        else
          match parseFields (body.data.length + 1) ⟨"", ""⟩ rest with
          | some (er, rest2) => if (skipWs rest2).isEmpty then some er else none
          | none => none
      | [] => none
    else none
  | [] => none

/-- `formatAPIError` from the second variant: use the decoded envelope when it
decodes and carries a non-empty message, otherwise surface the raw body. -/
def formatAPIError (status : Nat) (body : String) : String :=
  match decodeErrorResponse body with
  | some er =>
    if er.message ≠ "" then
      "API error (" ++ toString status ++ "): " ++ er.code ++ " - " ++ er.message
    else
      "API error (" ++ toString status ++ "): " ++ body
  | none => "API error (" ++ toString status ++ "): " ++ body

/-- The first variant's inline non-200 handling in `getAuthToken`: the result
of `json.Unmarshal` is ignored, so on a decode failure the zero-valued
envelope is formatted and the raw body never appears. -/
def V1.authFailureMessage (statusCode : Nat) (body : String) : String :=
  let errResp := (decodeErrorResponse body).getD ⟨"", ""⟩
  "authentication failed (status " ++ toString statusCode ++ "): " ++
    errResp.code ++ " - " ++ errResp.message

/-! ## Transaction poller

`pollTransactionStatus` in both variants loops over `checkTransactionStatus`
calls.  We model the sequence of outcomes of those calls as a function
`check : Nat → Except e TransactionResponse` from attempt counter values to
results, and the loop as a recursion on the remaining attempt budget that
also returns the trace of observable events (one `.call` per status check,
the printed log line, and a `.sleep 5` for each `time.Sleep(5 * time.Second)`). -/

inductive PollEvent where
  | call (attempt : Nat)
  | log (line : String)
  | sleep (seconds : Nat)
deriving DecidableEq, Repr

inductive PollError (e : Type) where
  | check (err : e)
  | timeout (msg : String)
deriving DecidableEq, Repr

/-- The per-variant parameters of the polling loop: how the status string is
normalized before the terminal-state comparison, the attempt budget, the log
line printed for a non-terminal response, and the timeout error message. -/
structure PollConfig where
  normalize : String → String
  maxAttempts : Nat
  logLine : Nat → TransactionResponse → String
  timeoutMsg : String

/-- Terminal-state test shared by both variants: the normalized status is
compared against SUCCESSFUL and FAILED. -/
def isTerminalStatus (normalize : String → String) (status : String) : Bool :=
  normalize status == "SUCCESSFUL" || normalize status == "FAILED"

/-- The polling loop: `a` is the current attempt counter value, `r` the
remaining number of attempts.  Mirrors the Go loop: perform the status check;
on error return it at once; on a terminal status return the record; otherwise
print the log line, sleep the 5-second interval and continue; when the budget
is exhausted return the timeout error. -/
def pollLoop (cfg : PollConfig) (check : Nat → Except e TransactionResponse) :
    Nat → Nat → Except (PollError e) TransactionResponse × List PollEvent
  | _, 0 => (.error (.timeout cfg.timeoutMsg), [])
  | a, r + 1 =>
    match check a with
    | .error err => (.error (.check err), [.call a])
    | .ok st =>
      if isTerminalStatus cfg.normalize st.status then
        (.ok st, [.call a])
      else
        let next := pollLoop cfg check (a + 1) r
        (next.1, .call a :: .log (cfg.logLine a st) :: .sleep 5 :: next.2)

/-- First variant: 60 attempts counted from 0, `strings.ToUpper` only (no
trimming), a dedicated PENDING log line, and a timeout message naming the
attempt count. -/
def V1.config : PollConfig where
  normalize := strToUpper
  maxAttempts := 60
  logLine := fun attempt st =>
    if strToUpper st.status = "PENDING" then
      " Status: PENDING (attempt " ++ toString (attempt + 1) ++ "/60, checking again in 5s...)"
    else
      " Status: " ++ st.status ++ " (checking again in 5s...)"
  timeoutMsg := "transaction status check timed out after 60 attempts"

def V1.pollTransactionStatus (check : Nat → Except e TransactionResponse) :
    Except (PollError e) TransactionResponse × List PollEvent :=
  pollLoop V1.config check 0 V1.config.maxAttempts

/-- Second variant: 40 attempts counted from 1, `normalizeStatus`
(trim then upper-case), one log line showing the normalized status, and a
plain timeout message. -/
def normalizeStatus (s : String) : String := strToUpper (trimString s)

def V2.config : PollConfig where
  normalize := normalizeStatus
  maxAttempts := 40
  logLine := fun attempt st =>
    "Status: " ++ normalizeStatus st.status ++ " (attempt " ++ toString attempt ++ "/40)"
  timeoutMsg := "transaction polling timed out"

def V2.pollTransactionStatus (check : Nat → Except e TransactionResponse) :
    Except (PollError e) TransactionResponse × List PollEvent :=
  pollLoop V2.config check 1 V2.config.maxAttempts

/-- Number of status-check calls recorded in a trace. -/
def callCount (tr : List PollEvent) : Nat :=
  tr.countP fun ev => match ev with | .call _ => true | _ => false

/-- Number of interval sleeps recorded in a trace. -/
def sleepCount (tr : List PollEvent) : Nat :=
  tr.countP fun ev => match ev with | .sleep _ => true | _ => false

/-- The trace produced by a run of non-terminal responses: for each attempt a
status-check call, the log line, and a 5-second sleep. -/
def pendingTrace (cfg : PollConfig) (stFun : Nat → TransactionResponse) :
    Nat → Nat → List PollEvent
  | _, 0 => []
  | a, r + 1 =>
    .call a :: .log (cfg.logLine a (stFun a)) :: .sleep 5 ::
      pendingTrace cfg stFun (a + 1) r

/-! ## Input validation -/

/-- The first variant's phone check in `run` (no normalization): the entered
value must already start with 237 and have length 12. -/
def V1.phoneValid (phoneNumber : String) : Bool :=
  strStartsWith "237" phoneNumber && phoneNumber.length == 12

/-- Head-character test `phone[0] == '6'` (guarded by the length check in the
caller, so the empty case cannot panic). -/
def firstCharIs6 (s : String) : Bool :=
  match s.data with
  | c :: _ => c = '6'
  | [] => false

/-- The normalization performed by the second variant's `promptPhone`: trim,
remove spaces, and prepend the country code when the result is a 9-character
value starting with the digit 6. -/
def V2.normalizePhone (input : String) : String :=
  let phone := stripSpaces (trimString input)
  if phone.length == 9 && firstCharIs6 phone then "237" ++ phone else phone

/-- The second variant's `promptPhone` validation applied to one entered
line: normalize, then require prefix 237 and total length 12. -/
def V2.promptPhone (input : String) : Except String String :=
  let phone := V2.normalizePhone input
  if !(strStartsWith "237" phone) || phone.length != 12 then
    .error "invalid phone number format"
  else
    .ok phone

/-- The first variant's amount validation in `run`: `strconv.Atoi`, rejecting
parse errors and values ≤ 0; on success the original string is what flows
into the collect request. -/
def V1.validateAmount (amountStr : String) : Except String String :=
  match atoi amountStr with
  | none => .error "invalid amount. Must be a positive integer"
  | some amount =>
    if amount ≤ 0 then .error "invalid amount. Must be a positive integer"
    else .ok amountStr

/-- The second variant's `promptAmount` applied to one entered line. -/
def V2.promptAmount (amtStr : String) : Except String Int :=
  match atoi amtStr with
  | none => .error "amount must be a positive integer"
  | some amount =>
    if amount ≤ 0 then .error "amount must be a positive integer"
    else .ok amount

/-- Construction of the first variant's collect request in `run`: the
validated amount string is placed unchanged in the amount field. -/
def V1.mkCollectRequest (amountStr phone description externalRef : String) :
    V1.CollectRequest :=
  { amount := amountStr
    currency := "XAF"
    «from» := phone
    description := description
    externalReference := externalRef }

/-- Construction of the second variant's collect request in `run`: the parsed
amount is placed unchanged in the amount field. -/
def V2.mkCollectRequest (amount : Int) (phone description externalRef : String) :
    V2.CollectRequest :=
  { amount := amount
    currency := "XAF"
    «from» := phone
    description := description
    externalReference := externalRef }

/-! ## Interactive prompting

`promptUser` reads lines from standard input; we model the input stream as the
list of lines still to be read.  A read failure (end of input) is `none`. -/

/-- First variant's `promptUser`: read one line, trim it, return it — even
when the trimmed value is empty. -/
def V1.promptUser : List String → Option (String × List String)
  | [] => none
  | line :: rest => some (trimString line, rest)

/-- Second variant's `promptUser`: read one line, trim it; on an empty result
prompt again on the remaining input. -/
def V2.promptUser : List String → Option (String × List String)
  | [] => none
  | line :: rest =>
    let input := trimString line
    if input = "" then V2.promptUser rest
    else some (input, rest)

/-! ## Base-URL selection -/

def prodURL : String := "https://www.campay.net/api"

def demoURL : String := "https://demo.campay.net/api"

/-- First variant: an empty ENVIRONMENT value defaults to DEV before the URL
is chosen. -/
def V1.effectiveEnvironment (environment : String) : String :=
  if environment = "" then "DEV" else environment

def V1.apiBaseURL (environment : String) : String :=
  if V1.effectiveEnvironment environment = "PROD" then prodURL else demoURL

/-- Second variant: same defaulting, with the URL chosen through the
`map[bool]string` indexed by `env == "PROD"`. -/
def V2.effectiveEnvironment (env : String) : String :=
  if env = "" then "DEV" else env

def V2.apiBaseURL (env : String) : String :=
  if V2.effectiveEnvironment env = "PROD" then prodURL else demoURL

/-! ## Concrete fixtures used by witnesses and counterexamples -/

def pendingTxn : TransactionResponse :=
  { reference := "r1", externalReference := "TXN-1", status := "PENDING",
    amount := 1000.0, currency := "XAF", operator := "MTN", code := "CP1",
    operatorReference := "", description := "test" }

def constPendingCheck : Nat → Except Unit TransactionResponse := fun _ => .ok pendingTxn

def failedTxn : TransactionResponse :=
  { reference := "r1", externalReference := "TXN-1", status := "FAILED",
    amount := 1000.0, currency := "XAF", operator := "MTN", code := "CP1",
    operatorReference := "", description := "test" }

def successTxn : TransactionResponse :=
  { reference := "r1", externalReference := "TXN-1", status := "Successful",
    amount := 1000.0, currency := "XAF", operator := "MTN", code := "CP1",
    operatorReference := "", description := "test" }

def wsSuccessTxn : TransactionResponse :=
  { reference := "r1", externalReference := "TXN-1", status := " successful",
    amount := 1000.0, currency := "XAF", operator := "MTN", code := "CP1",
    operatorReference := "", description := "test" }

def constWsSuccessCheck : Nat → Except Unit TransactionResponse := fun _ => .ok wsSuccessTxn

def initiatedTxn : TransactionResponse :=
  { reference := "r1", externalReference := "TXN-1", status := "Initiated",
    amount := 1000.0, currency := "XAF", operator := "MTN", code := "CP1",
    operatorReference := "", description := "test" }

def c7check : Nat → Except Unit TransactionResponse :=
  fun i => if i ≤ 1 then .ok initiatedTxn else .error ()

/-! ## Generic lemmas about the polling loop -/

theorem pollLoop_allNonterminal (cfg : PollConfig)
    (check : Nat → Except e TransactionResponse) (stFun : Nat → TransactionResponse) :
    ∀ r a, (∀ j, j < r → check (a + j) = .ok (stFun (a + j)) ∧
        isTerminalStatus cfg.normalize (stFun (a + j)).status = false) →
      pollLoop cfg check a r =
        (.error (.timeout cfg.timeoutMsg), pendingTrace cfg stFun a r) := by
  intro r
  induction r with
  | zero => intro a _; simp [pollLoop, pendingTrace]
  | succ r ih =>
    intro a h
    have h0 := h 0 (by omega)
    rw [Nat.add_zero] at h0
    have hrec := ih (a + 1) (fun j hj => by
      have hh := h (j + 1) (by omega)
      have e : a + (j + 1) = (a + 1) + j := by omega
      rwa [e] at hh)
    simp [pollLoop, h0.1, h0.2, pendingTrace, hrec]

theorem pollLoop_firstTerminal (cfg : PollConfig)
    (check : Nat → Except e TransactionResponse) (stFun : Nat → TransactionResponse) :
    ∀ k a r st, (∀ j, j < k → check (a + j) = .ok (stFun (a + j)) ∧
        isTerminalStatus cfg.normalize (stFun (a + j)).status = false) →
      check (a + k) = .ok st → isTerminalStatus cfg.normalize st.status = true →
      k < r →
      pollLoop cfg check a r =
        (.ok st, pendingTrace cfg stFun a k ++ [.call (a + k)]) := by
  intro k
  induction k with
  | zero =>
    intro a r st _ hk hterm hr
    match r, hr with
    | r' + 1, _ =>
      rw [Nat.add_zero] at hk
      simp [pollLoop, hk, hterm, pendingTrace]
  | succ k ih =>
    intro a r st h hk hterm hr
    match r, hr with
    | r' + 1, hr =>
      have h0 := h 0 (by omega)
      rw [Nat.add_zero] at h0
      have e : a + (k + 1) = (a + 1) + k := by omega
      have hrec := ih (a + 1) r' st
        (fun j hj => by
          have hh := h (j + 1) (by omega)
          have e2 : a + (j + 1) = (a + 1) + j := by omega
          rwa [e2] at hh)
        (by rwa [e] at hk) hterm (by omega)
      simp [pollLoop, h0.1, h0.2, pendingTrace, hrec, e]

theorem pollLoop_firstError (cfg : PollConfig)
    (check : Nat → Except e TransactionResponse) (stFun : Nat → TransactionResponse) :
    ∀ k a r err, (∀ j, j < k → check (a + j) = .ok (stFun (a + j)) ∧
        isTerminalStatus cfg.normalize (stFun (a + j)).status = false) →
      check (a + k) = .error err →
      k < r →
      pollLoop cfg check a r =
        (.error (.check err), pendingTrace cfg stFun a k ++ [.call (a + k)]) := by
  intro k
  induction k with
  | zero =>
    intro a r err _ hk hr
    match r, hr with
    | r' + 1, _ =>
      rw [Nat.add_zero] at hk
      simp [pollLoop, hk, pendingTrace]
  | succ k ih =>
    intro a r err h hk hr
    match r, hr with
    | r' + 1, hr =>
      have h0 := h 0 (by omega)
      rw [Nat.add_zero] at h0
      have e : a + (k + 1) = (a + 1) + k := by omega
      have hrec := ih (a + 1) r' err
        (fun j hj => by
          have hh := h (j + 1) (by omega)
          have e2 : a + (j + 1) = (a + 1) + j := by omega
          rwa [e2] at hh)
        (by rwa [e] at hk) (by omega)
      simp [pollLoop, h0.1, h0.2, pendingTrace, hrec, e]

theorem callCount_pendingTrace (cfg : PollConfig) (stFun : Nat → TransactionResponse) :
    ∀ r a, callCount (pendingTrace cfg stFun a r) = r := by
  intro r
  induction r with
  | zero => intro a; simp [pendingTrace, callCount]
  | succ r ih =>
    intro a
    have h := ih (a + 1)
    simp [pendingTrace, callCount, List.countP_cons] at h ⊢
    omega

theorem sleepCount_pendingTrace (cfg : PollConfig) (stFun : Nat → TransactionResponse) :
    ∀ r a, sleepCount (pendingTrace cfg stFun a r) = r := by
  intro r
  induction r with
  | zero => intro a; simp [pendingTrace, sleepCount]
  | succ r ih =>
    intro a
    have h := ih (a + 1)
    simp [pendingTrace, sleepCount, List.countP_cons] at h ⊢
    omega

theorem callCount_append (l l' : List PollEvent) :
    callCount (l ++ l') = callCount l + callCount l' := by
  simp [callCount, List.countP_append]

/-! ## Claims -/

/-- Claim C10: the production URL is chosen exactly when ENVIRONMENT is the
case-sensitive string PROD; every other value, including prod and production,
selects the demo URL, and an empty value is replaced by DEV before selection
(in both program variants). -/
theorem C10_base_url_selection :
    (∀ env : String, V1.apiBaseURL env = prodURL ↔ env = "PROD") ∧
    (∀ env : String, V2.apiBaseURL env = prodURL ↔ env = "PROD") ∧
    V1.effectiveEnvironment "" = "DEV" ∧ V2.effectiveEnvironment "" = "DEV" ∧
    V1.apiBaseURL "" = demoURL ∧ V2.apiBaseURL "" = demoURL ∧
    V1.apiBaseURL "prod" = demoURL ∧ V1.apiBaseURL "production" = demoURL ∧
    V2.apiBaseURL "prod" = demoURL ∧ V2.apiBaseURL "production" = demoURL := by
  refine ⟨?_, ?_, by decide, by decide, by decide, by decide, by decide, by decide,
    by decide, by decide⟩ <;>
  · intro env
    by_cases h1 : env = ""
    · subst h1
      simp only [V1.apiBaseURL, V1.effectiveEnvironment, V2.apiBaseURL, V2.effectiveEnvironment,
        if_pos rfl]
      constructor
      · intro h; exact absurd h (by decide)
      · intro h; exact absurd h (by decide)
    · by_cases h2 : env = "PROD"
      · subst h2
        simp [V1.apiBaseURL, V1.effectiveEnvironment, V2.apiBaseURL, V2.effectiveEnvironment]
      · simp only [V1.apiBaseURL, V1.effectiveEnvironment, V2.apiBaseURL, V2.effectiveEnvironment,
          if_neg h1, if_neg h2]
        constructor
        · intro h; exact absurd h (by decide)
        · intro h; exact absurd h h2

/-- Claim C2: when every status-check response has status `PENDING`, the first
variant makes exactly 60 status-check calls and the second exactly 40, the
trace interleaves each call with the logged line and a 5-second sleep, and the
result is the timeout error rather than a transaction record. -/
theorem C2_pending_exhausts_budget {e : Type}
    (check₁ check₂ : Nat → Except e TransactionResponse)
    (st₁ st₂ : Nat → TransactionResponse)
    (h₁ : ∀ i, i < 60 → check₁ i = .ok (st₁ i) ∧ (st₁ i).status = "PENDING")
    (h₂ : ∀ i, 1 ≤ i → i ≤ 40 → check₂ i = .ok (st₂ i) ∧ (st₂ i).status = "PENDING") :
    V1.pollTransactionStatus check₁ =
      (.error (.timeout "transaction status check timed out after 60 attempts"),
        pendingTrace V1.config st₁ 0 60) ∧
    callCount (V1.pollTransactionStatus check₁).2 = 60 ∧
    sleepCount (V1.pollTransactionStatus check₁).2 = 60 ∧
    V2.pollTransactionStatus check₂ =
      (.error (.timeout "transaction polling timed out"),
        pendingTrace V2.config st₂ 1 40) ∧
    callCount (V2.pollTransactionStatus check₂).2 = 40 ∧
    sleepCount (V2.pollTransactionStatus check₂).2 = 40 := by
  have e₁ : V1.pollTransactionStatus check₁ =
      (.error (.timeout "transaction status check timed out after 60 attempts"),
        pendingTrace V1.config st₁ 0 60) :=
    pollLoop_allNonterminal V1.config check₁ st₁ 60 0 (fun j hj => by
      have h := h₁ (0 + j) (by omega)
      refine ⟨h.1, ?_⟩
      show isTerminalStatus strToUpper (st₁ (0 + j)).status = false
      rw [h.2]; decide)
  have e₂ : V2.pollTransactionStatus check₂ =
      (.error (.timeout "transaction polling timed out"),
        pendingTrace V2.config st₂ 1 40) :=
    pollLoop_allNonterminal V2.config check₂ st₂ 40 1 (fun j hj => by
      have h := h₂ (1 + j) (by omega) (by omega)
      refine ⟨h.1, ?_⟩
      show isTerminalStatus normalizeStatus (st₂ (1 + j)).status = false
      rw [h.2]; decide)
  refine ⟨e₁, ?_, ?_, e₂, ?_, ?_⟩
  · rw [e₁]; exact callCount_pendingTrace V1.config st₁ 60 0
  · rw [e₁]; exact sleepCount_pendingTrace V1.config st₁ 60 0
  · rw [e₂]; exact callCount_pendingTrace V2.config st₂ 40 1
  · rw [e₂]; exact sleepCount_pendingTrace V2.config st₂ 40 1

/-- Witness for C2: with every response PENDING, the two pollers make exactly
60 and 40 status-check calls and time out. -/
theorem C2_witness :
    callCount (V1.pollTransactionStatus constPendingCheck).2 = 60 ∧
    callCount (V2.pollTransactionStatus constPendingCheck).2 = 40 := by
  have h := C2_pending_exhausts_budget constPendingCheck constPendingCheck
    (fun _ => pendingTxn) (fun _ => pendingTxn)
    (fun i _ => ⟨rfl, rfl⟩) (fun i _ _ => ⟨rfl, rfl⟩)
  exact ⟨h.2.1, h.2.2.2.2.1⟩

/-- Claim C3: a failed status check (the call returns an error) on any attempt
aborts the poll immediately in both variants: the error is returned unchanged
and exactly the attempts up to and including the failing one are used. -/
theorem C3_check_failure_aborts {e : Type}
    (check₁ check₂ : Nat → Except e TransactionResponse)
    (st₁ st₂ : Nat → TransactionResponse) (k₁ k₂ : Nat) (err₁ err₂ : e)
    (h₁ : ∀ j, j < k₁ → check₁ j = .ok (st₁ j) ∧
      isTerminalStatus strToUpper (st₁ j).status = false)
    (hk₁ : check₁ k₁ = .error err₁) (hlt₁ : k₁ < 60)
    (h₂ : ∀ j, j < k₂ → check₂ (1 + j) = .ok (st₂ (1 + j)) ∧
      isTerminalStatus normalizeStatus (st₂ (1 + j)).status = false)
    (hk₂ : check₂ (1 + k₂) = .error err₂) (hlt₂ : k₂ < 40) :
    V1.pollTransactionStatus check₁ =
      (.error (.check err₁), pendingTrace V1.config st₁ 0 k₁ ++ [.call k₁]) ∧
    callCount (V1.pollTransactionStatus check₁).2 = k₁ + 1 ∧
    V2.pollTransactionStatus check₂ =
      (.error (.check err₂), pendingTrace V2.config st₂ 1 k₂ ++ [.call (1 + k₂)]) ∧
    callCount (V2.pollTransactionStatus check₂).2 = k₂ + 1 := by
  have e₁ : V1.pollTransactionStatus check₁ =
      (.error (.check err₁), pendingTrace V1.config st₁ 0 k₁ ++ [.call (0 + k₁)]) :=
    pollLoop_firstError V1.config check₁ st₁ k₁ 0 60 err₁
      (fun j hj => by rw [Nat.zero_add]; exact h₁ j hj)
      (by rwa [Nat.zero_add]) hlt₁
  rw [Nat.zero_add] at e₁
  have e₂ : V2.pollTransactionStatus check₂ =
      (.error (.check err₂), pendingTrace V2.config st₂ 1 k₂ ++ [.call (1 + k₂)]) :=
    pollLoop_firstError V2.config check₂ st₂ k₂ 1 40 err₂ h₂ hk₂ hlt₂
  refine ⟨e₁, ?_, e₂, ?_⟩
  · rw [e₁]
    show callCount (pendingTrace V1.config st₁ 0 k₁ ++ [.call k₁]) = k₁ + 1
    rw [callCount_append, callCount_pendingTrace]
    rfl
  · rw [e₂]
    show callCount (pendingTrace V2.config st₂ 1 k₂ ++ [.call (1 + k₂)]) = k₂ + 1
    rw [callCount_append, callCount_pendingTrace]
    rfl

/-- Witness for C3: a transport failure on the very first status check aborts
both pollers after exactly one call, surfacing that error. -/
theorem C3_witness :
    V1.pollTransactionStatus (fun _ => (.error () : Except Unit TransactionResponse)) =
      (.error (.check ()), [.call 0]) ∧
    V2.pollTransactionStatus (fun _ => (.error () : Except Unit TransactionResponse)) =
      (.error (.check ()), [.call 1]) := by
  have h := C3_check_failure_aborts (fun _ => (.error () : Except Unit TransactionResponse))
    (fun _ => .error ()) (fun _ => pendingTxn) (fun _ => pendingTxn) 0 0 () ()
    (fun j hj => absurd hj (by omega)) rfl (by omega)
    (fun j hj => absurd hj (by omega)) rfl (by omega)
  exact ⟨h.1, h.2.2.1⟩

/-- Claim C8: a gateway-reported FAILED status is returned as a normal
transaction record exactly as SUCCESSFUL is (no error), while exhausting the
budget yields the timeout error carrying no record; the two outcomes are
distinct constructors and can never be conflated. -/
theorem C8_failed_vs_timeout {e : Type}
    (check₁ check₂ check₃ check₄ : Nat → Except e TransactionResponse)
    (st₁ st₂ st₃ st₄ : Nat → TransactionResponse) (k₁ k₂ : Nat)
    (stA stB : TransactionResponse)
    (h₁ : ∀ j, j < k₁ → check₁ j = .ok (st₁ j) ∧
      isTerminalStatus strToUpper (st₁ j).status = false)
    (hk₁ : check₁ k₁ = .ok stA)
    (ht₁ : strToUpper stA.status = "FAILED" ∨ strToUpper stA.status = "SUCCESSFUL")
    (hlt₁ : k₁ < 60)
    (h₂ : ∀ j, j < k₂ → check₂ (1 + j) = .ok (st₂ (1 + j)) ∧
      isTerminalStatus normalizeStatus (st₂ (1 + j)).status = false)
    (hk₂ : check₂ (1 + k₂) = .ok stB)
    (ht₂ : normalizeStatus stB.status = "FAILED" ∨ normalizeStatus stB.status = "SUCCESSFUL")
    (hlt₂ : k₂ < 40)
    (h₃ : ∀ i, i < 60 → check₃ i = .ok (st₃ i) ∧
      isTerminalStatus strToUpper (st₃ i).status = false)
    (h₄ : ∀ i, 1 ≤ i → i ≤ 40 → check₄ i = .ok (st₄ i) ∧
      isTerminalStatus normalizeStatus (st₄ i).status = false) :
    (V1.pollTransactionStatus check₁).1 = .ok stA ∧
    (V2.pollTransactionStatus check₂).1 = .ok stB ∧
    (V1.pollTransactionStatus check₃).1 =
      .error (.timeout "transaction status check timed out after 60 attempts") ∧
    (V2.pollTransactionStatus check₄).1 =
      .error (.timeout "transaction polling timed out") ∧
    (∀ (rec : TransactionResponse) (pe : PollError e),
      (Except.ok rec : Except (PollError e) TransactionResponse) ≠ .error pe) := by
  have term₁ : isTerminalStatus strToUpper stA.status = true := by
    rcases ht₁ with h | h <;> simp [isTerminalStatus, h]
  have term₂ : isTerminalStatus normalizeStatus stB.status = true := by
    rcases ht₂ with h | h <;> simp [isTerminalStatus, h]
  have e₁ : V1.pollTransactionStatus check₁ =
      (.ok stA, pendingTrace V1.config st₁ 0 k₁ ++ [.call (0 + k₁)]) :=
    pollLoop_firstTerminal V1.config check₁ st₁ k₁ 0 60 stA
      (fun j hj => by rw [Nat.zero_add]; exact h₁ j hj)
      (by rwa [Nat.zero_add]) term₁ hlt₁
  have e₂ : V2.pollTransactionStatus check₂ =
      (.ok stB, pendingTrace V2.config st₂ 1 k₂ ++ [.call (1 + k₂)]) :=
    pollLoop_firstTerminal V2.config check₂ st₂ k₂ 1 40 stB h₂ hk₂ term₂ hlt₂
  have e₃ : V1.pollTransactionStatus check₃ =
      (.error (.timeout "transaction status check timed out after 60 attempts"),
        pendingTrace V1.config st₃ 0 60) :=
    pollLoop_allNonterminal V1.config check₃ st₃ 60 0 (fun j hj => h₃ (0 + j) (by omega))
  have e₄ : V2.pollTransactionStatus check₄ =
      (.error (.timeout "transaction polling timed out"),
        pendingTrace V2.config st₄ 1 40) :=
    pollLoop_allNonterminal V2.config check₄ st₄ 40 1
      (fun j hj => h₄ (1 + j) (by omega) (by omega))
  exact ⟨by rw [e₁], by rw [e₂], by rw [e₃], by rw [e₄], fun rec pe => by simp⟩

/-- Witness for C8: a FAILED response on the first attempt returns the record
without error in both variants, and all-PENDING runs return the timeout error. -/
theorem C8_witness :
    (V1.pollTransactionStatus (fun _ => (.ok failedTxn : Except Unit TransactionResponse))).1 =
      .ok failedTxn ∧
    (V2.pollTransactionStatus (fun _ => (.ok failedTxn : Except Unit TransactionResponse))).1 =
      .ok failedTxn ∧
    (V1.pollTransactionStatus constPendingCheck).1 =
      .error (.timeout "transaction status check timed out after 60 attempts") ∧
    (V2.pollTransactionStatus constPendingCheck).1 =
      .error (.timeout "transaction polling timed out") := by
  have h := C8_failed_vs_timeout
    (fun _ => (.ok failedTxn : Except Unit TransactionResponse)) (fun _ => .ok failedTxn)
    constPendingCheck constPendingCheck
    (fun _ => failedTxn) (fun _ => failedTxn) (fun _ => pendingTxn) (fun _ => pendingTxn)
    0 0 failedTxn failedTxn
    (fun j hj => absurd hj (by omega)) rfl
    (by left; show strToUpper failedTxn.status = "FAILED"; decide) (by omega)
    (fun j hj => absurd hj (by omega)) rfl
    (by left; show normalizeStatus failedTxn.status = "FAILED"; decide) (by omega)
    (fun i _ => ⟨rfl, by show isTerminalStatus strToUpper pendingTxn.status = false; decide⟩)
    (fun i _ _ => ⟨rfl, by show isTerminalStatus normalizeStatus pendingTxn.status = false; decide⟩)
  exact ⟨h.1, h.2.1, h.2.2.1, h.2.2.2.1⟩

/-- Claim C1 (amended): each variant returns immediately on the first response
whose status is terminal under that variant's own normalization — upper-casing
only in the first variant, trimming plus upper-casing in the second — with
that transaction record and exactly the status-check calls made so far,
regardless of the attempt on which it occurs. -/
theorem C1_terminal_returns_immediately {e : Type}
    (check₁ check₂ : Nat → Except e TransactionResponse)
    (st₁ st₂ : Nat → TransactionResponse) (k₁ k₂ : Nat)
    (stA stB : TransactionResponse)
    (h₁ : ∀ j, j < k₁ → check₁ j = .ok (st₁ j) ∧
      isTerminalStatus strToUpper (st₁ j).status = false)
    (hk₁ : check₁ k₁ = .ok stA)
    (ht₁ : strToUpper stA.status = "SUCCESSFUL" ∨ strToUpper stA.status = "FAILED")
    (hlt₁ : k₁ < 60)
    (h₂ : ∀ j, j < k₂ → check₂ (1 + j) = .ok (st₂ (1 + j)) ∧
      isTerminalStatus normalizeStatus (st₂ (1 + j)).status = false)
    (hk₂ : check₂ (1 + k₂) = .ok stB)
    (ht₂ : normalizeStatus stB.status = "SUCCESSFUL" ∨ normalizeStatus stB.status = "FAILED")
    (hlt₂ : k₂ < 40) :
    V1.pollTransactionStatus check₁ =
      (.ok stA, pendingTrace V1.config st₁ 0 k₁ ++ [.call k₁]) ∧
    callCount (V1.pollTransactionStatus check₁).2 = k₁ + 1 ∧
    V2.pollTransactionStatus check₂ =
      (.ok stB, pendingTrace V2.config st₂ 1 k₂ ++ [.call (1 + k₂)]) ∧
    callCount (V2.pollTransactionStatus check₂).2 = k₂ + 1 := by
  have term₁ : isTerminalStatus strToUpper stA.status = true := by
    rcases ht₁ with h | h <;> simp [isTerminalStatus, h]
  have term₂ : isTerminalStatus normalizeStatus stB.status = true := by
    rcases ht₂ with h | h <;> simp [isTerminalStatus, h]
  have e₁ : V1.pollTransactionStatus check₁ =
      (.ok stA, pendingTrace V1.config st₁ 0 k₁ ++ [.call (0 + k₁)]) :=
    pollLoop_firstTerminal V1.config check₁ st₁ k₁ 0 60 stA
      (fun j hj => by rw [Nat.zero_add]; exact h₁ j hj)
      (by rwa [Nat.zero_add]) term₁ hlt₁
  rw [Nat.zero_add] at e₁
  have e₂ : V2.pollTransactionStatus check₂ =
      (.ok stB, pendingTrace V2.config st₂ 1 k₂ ++ [.call (1 + k₂)]) :=
    pollLoop_firstTerminal V2.config check₂ st₂ k₂ 1 40 stB h₂ hk₂ term₂ hlt₂
  refine ⟨e₁, ?_, e₂, ?_⟩
  · rw [e₁]
    show callCount (pendingTrace V1.config st₁ 0 k₁ ++ [.call k₁]) = k₁ + 1
    rw [callCount_append, callCount_pendingTrace]
    rfl
  · rw [e₂]
    show callCount (pendingTrace V2.config st₂ 1 k₂ ++ [.call (1 + k₂)]) = k₂ + 1
    rw [callCount_append, callCount_pendingTrace]
    rfl

/-- Witness for C1: a response whose status upper-cases to SUCCESSFUL on the
first attempt makes both pollers return it after exactly one call. -/
theorem C1_witness :
    V1.pollTransactionStatus (fun _ => (.ok successTxn : Except Unit TransactionResponse)) =
      (.ok successTxn, [.call 0]) ∧
    V2.pollTransactionStatus (fun _ => (.ok successTxn : Except Unit TransactionResponse)) =
      (.ok successTxn, [.call 1]) := by
  have h := C1_terminal_returns_immediately
    (fun _ => (.ok successTxn : Except Unit TransactionResponse)) (fun _ => .ok successTxn)
    (fun _ => successTxn) (fun _ => successTxn) 0 0 successTxn successTxn
    (fun j hj => absurd hj (by omega)) rfl
    (by left; show strToUpper successTxn.status = "SUCCESSFUL"; decide) (by omega)
    (fun j hj => absurd hj (by omega)) rfl
    (by left; show normalizeStatus successTxn.status = "SUCCESSFUL"; decide) (by omega)
  exact ⟨h.1, h.2.2.1⟩

/-- Counterexample to claim C1 as stated: the status " successful" trims and
upper-cases to SUCCESSFUL, so the claim requires the poller to return the
record on attempt 1 with no further calls; the first variant, which never
trims, instead treats every such response as non-terminal, makes all 60 calls
and returns the timeout error. -/
theorem C1_counterexample :
    normalizeStatus " successful" = "SUCCESSFUL" ∧
    V1.pollTransactionStatus constWsSuccessCheck =
      (.error (.timeout "transaction status check timed out after 60 attempts"),
        pendingTrace V1.config (fun _ => wsSuccessTxn) 0 60) ∧
    callCount (V1.pollTransactionStatus constWsSuccessCheck).2 = 60 := by
  have h : V1.pollTransactionStatus constWsSuccessCheck =
      (.error (.timeout "transaction status check timed out after 60 attempts"),
        pendingTrace V1.config (fun _ => wsSuccessTxn) 0 60) :=
    pollLoop_allNonterminal V1.config constWsSuccessCheck (fun _ => wsSuccessTxn) 60 0
      (fun j _ => ⟨rfl, by show isTerminalStatus strToUpper wsSuccessTxn.status = false; decide⟩)
  refine ⟨by decide, h, ?_⟩
  rw [h]
  exact callCount_pendingTrace V1.config (fun _ => wsSuccessTxn) 60 0

/-- Claim C7 (amended): a response whose status is not terminal under the
variant's normalization is treated as non-terminal — never coerced to PENDING
— the poller logs a line, sleeps the 5-second interval and continues with the
next attempt; the logged line carries the raw status in the first variant
(for statuses not upper-casing to PENDING) but the trimmed upper-cased status
in the second variant. -/
theorem C7_unrecognized_status_continues {e : Type}
    (check₁ check₂ : Nat → Except e TransactionResponse) (a₁ a₂ r₁ r₂ : Nat)
    (st : TransactionResponse)
    (h₁ : check₁ a₁ = .ok st) (h₂ : check₂ a₂ = .ok st)
    (hnt₁ : isTerminalStatus strToUpper st.status = false)
    (hnt₂ : isTerminalStatus normalizeStatus st.status = false)
    (hp : strToUpper st.status ≠ "PENDING") :
    pollLoop V1.config check₁ a₁ (r₁ + 1) =
      ((pollLoop V1.config check₁ (a₁ + 1) r₁).1,
        .call a₁ :: .log (" Status: " ++ st.status ++ " (checking again in 5s...)") ::
          .sleep 5 :: (pollLoop V1.config check₁ (a₁ + 1) r₁).2) ∧
    pollLoop V2.config check₂ a₂ (r₂ + 1) =
      ((pollLoop V2.config check₂ (a₂ + 1) r₂).1,
        .call a₂ :: .log ("Status: " ++ normalizeStatus st.status ++
            " (attempt " ++ toString a₂ ++ "/40)") ::
          .sleep 5 :: (pollLoop V2.config check₂ (a₂ + 1) r₂).2) := by
  have hnt₁' : isTerminalStatus V1.config.normalize st.status = false := hnt₁
  have hnt₂' : isTerminalStatus V2.config.normalize st.status = false := hnt₂
  constructor
  · have hline : V1.config.logLine a₁ st =
        " Status: " ++ st.status ++ " (checking again in 5s...)" := by
      show (if strToUpper st.status = "PENDING" then
          " Status: PENDING (attempt " ++ toString (a₁ + 1) ++
            "/60, checking again in 5s...)"
        else " Status: " ++ st.status ++ " (checking again in 5s...)") = _
      rw [if_neg hp]
    simp [pollLoop, h₁, hnt₁', hline]
  · have hline₂ : V2.config.logLine a₂ st =
        "Status: " ++ normalizeStatus st.status ++ " (attempt " ++ toString a₂ ++ "/40)" := rfl
    simp [pollLoop, h₂, hnt₂', hline₂]

/-- Witness for C7: a status Initiated, terminal under neither normalization,
makes both variants log, sleep 5 seconds and continue to the next attempt. -/
theorem C7_witness :
    pollLoop V1.config c7check 0 60 =
      ((pollLoop V1.config c7check 1 59).1,
        .call 0 :: .log " Status: Initiated (checking again in 5s...)" ::
          .sleep 5 :: (pollLoop V1.config c7check 1 59).2) ∧
    pollLoop V2.config c7check 1 40 =
      ((pollLoop V2.config c7check 2 39).1,
        .call 1 :: .log "Status: INITIATED (attempt 1/40)" ::
          .sleep 5 :: (pollLoop V2.config c7check 2 39).2) := by
  have h := C7_unrecognized_status_continues c7check c7check 0 1 59 39 initiatedTxn
    rfl
    rfl
    (by show isTerminalStatus strToUpper initiatedTxn.status = false; decide)
    (by show isTerminalStatus normalizeStatus initiatedTxn.status = false; decide)
    (by show strToUpper initiatedTxn.status ≠ "PENDING"; decide)
  exact h

/-- Counterexample to claim C7 as stated: with the non-terminal status
Initiated, the second variant's poller logs the normalized text INITIATED,
not the status as-is — the raw string Initiated does not occur in the logged
line. -/
theorem C7_counterexample :
    (V2.pollTransactionStatus c7check).2 =
      [.call 1, .log "Status: INITIATED (attempt 1/40)", .sleep 5, .call 2] ∧
    isSubChars "Initiated".data "Status: INITIATED (attempt 1/40)".data = false := by
  constructor
  · rfl
  · decide

/-- Claim C4 (amended): the second variant's `formatAPIError` extracts the
envelope's code and message when the body decodes with a non-empty message
and otherwise surfaces the raw body verbatim (including the two cited
scenarios); the first variant's inline handling ignores the decode result of
a failed `json.Unmarshal` and always formats the (then empty) code and
message, never the raw body. -/
theorem C4_error_decoder :
    (∀ (status : Nat) (body : String) (er : ErrorResponse),
      decodeErrorResponse body = some er → er.message ≠ "" →
      formatAPIError status body =
        "API error (" ++ toString status ++ "): " ++ er.code ++ " - " ++ er.message) ∧
    (∀ (status : Nat) (body : String),
      decodeErrorResponse body = none →
      formatAPIError status body = "API error (" ++ toString status ++ "): " ++ body) ∧
    (∀ (status : Nat) (body : String) (er : ErrorResponse),
      decodeErrorResponse body = some er → er.message = "" →
      formatAPIError status body = "API error (" ++ toString status ++ "): " ++ body) ∧
    decodeErrorResponse "\x7b\"code\":\"ER201\",\"message\":\"Invalid amount\"\x7d" =
      some ⟨"ER201", "Invalid amount"⟩ ∧
    formatAPIError 400 "\x7b\"code\":\"ER201\",\"message\":\"Invalid amount\"\x7d" =
      "API error (400): ER201 - Invalid amount" ∧
    isSubChars "ER201".data "API error (400): ER201 - Invalid amount".data = true ∧
    isSubChars "Invalid amount".data "API error (400): ER201 - Invalid amount".data = true ∧
    formatAPIError 500 "internal error" = "API error (500): internal error" ∧
    isSubChars "internal error".data "API error (500): internal error".data = true ∧
    (∀ (status : Nat) (body : String),
      decodeErrorResponse body = none →
      V1.authFailureMessage status body =
        "authentication failed (status " ++ toString status ++ "): " ++ "" ++ " - " ++ "") := by
  refine ⟨?_, ?_, ?_, by decide, by decide, by decide, by decide, by decide, by decide, ?_⟩
  · intro status body er hdec hmsg
    simp [formatAPIError, hdec, hmsg]
  · intro status body hdec
    simp [formatAPIError, hdec]
  · intro status body er hdec hmsg
    simp [formatAPIError, hdec, hmsg]
  · intro status body hdec
    simp [V1.authFailureMessage, hdec]

/-- Witness for C4: the amended statement applied to the two cited scenarios —
a 400 with a well-formed envelope, a 500 with the non-JSON body
internal error, and the first variant's handling of the latter. -/
theorem C4_witness :
    formatAPIError 400 "\x7b\"code\":\"ER201\",\"message\":\"Invalid amount\"\x7d" =
      "API error (" ++ toString (400 : Nat) ++ "): " ++ "ER201" ++ " - " ++ "Invalid amount" ∧
    formatAPIError 500 "internal error" =
      "API error (" ++ toString (500 : Nat) ++ "): " ++ "internal error" ∧
    V1.authFailureMessage 500 "internal error" =
      "authentication failed (status " ++ toString (500 : Nat) ++ "): " ++ "" ++ " - " ++ "" := by
  refine ⟨?_, ?_, ?_⟩
  · exact C4_error_decoder.1 400 "\x7b\"code\":\"ER201\",\"message\":\"Invalid amount\"\x7d"
      ⟨"ER201", "Invalid amount"⟩ (by decide) (by decide)
  · exact C4_error_decoder.2.1 500 "internal error" (by decide)
  · exact C4_error_decoder.2.2.2.2.2.2.2.2.2 500 "internal error" (by decide)

/-- Counterexample to claim C4 as stated: for status 500 with the non-JSON
body internal error, the first variant's error (from the inline decoding the
claim cites) is authentication failed (status 500):  -  , which does not
contain the raw body text. -/
theorem C4_counterexample :
    decodeErrorResponse "internal error" = none ∧
    V1.authFailureMessage 500 "internal error" = "authentication failed (status 500):  - " ∧
    isSubChars "internal error".data (V1.authFailureMessage 500 "internal error").data = false := by
  refine ⟨by decide, by decide, by decide⟩

/-! ## Helper lemmas about the string model -/

theorem strData_append (a b : String) : (a ++ b).data = a.data ++ b.data := by
  rcases a with ⟨la⟩
  rcases b with ⟨lb⟩
  rfl

theorem isPrefixOf_append_self (l t : List Char) : l.isPrefixOf (l ++ t) = true := by
  induction l with
  | nil => simp [List.isPrefixOf]
  | cons c cs ih => simp [List.isPrefixOf, ih]

theorem strStartsWith_append (p t : String) : strStartsWith p (p ++ t) = true := by
  rw [strStartsWith, strData_append]
  exact isPrefixOf_append_self p.data t.data

theorem strLength_append (a b : String) : (a ++ b).length = a.length + b.length := by
  show (a ++ b).data.length = a.data.length + b.data.length
  rw [strData_append, List.length_append]

/-- Claim C5 (amended): in the second variant, after trimming and removing
spaces, any input of exactly 9 characters starting with the character 6 gets
237 prepended and is accepted; exactly the normalized strings with prefix 237
and total length 12 characters are accepted — digit content is never checked.
The first variant performs no normalization: it accepts exactly the raw
values with prefix 237 and length 12, rejecting local 9-digit forms. -/
theorem C5_phone_validation :
    (∀ input : String,
      (stripSpaces (trimString input)).length = 9 →
      firstCharIs6 (stripSpaces (trimString input)) = true →
      V2.promptPhone input = .ok ("237" ++ stripSpaces (trimString input))) ∧
    (∀ input : String,
      strStartsWith "237" (V2.normalizePhone input) = true →
      (V2.normalizePhone input).length = 12 →
      V2.promptPhone input = .ok (V2.normalizePhone input)) ∧
    (∀ input p : String, V2.promptPhone input = .ok p →
      strStartsWith "237" p = true ∧ p.length = 12 ∧ p = V2.normalizePhone input) ∧
    (∀ p : String, V1.phoneValid p = true ↔
      strStartsWith "237" p = true ∧ p.length = 12) ∧
    V1.phoneValid "670123456" = false := by
  refine ⟨?_, ?_, ?_, ?_, by decide⟩
  · intro input h9 h6
    have hphone : V2.normalizePhone input = "237" ++ stripSpaces (trimString input) := by
      simp [V2.normalizePhone, h9, h6]
    have h237 : "237".length = 3 := rfl
    unfold V2.promptPhone
    rw [hphone]
    simp [strStartsWith_append, strLength_append, h9, h237]
  · intro input hp hl
    unfold V2.promptPhone
    simp [hp, hl]
  · intro input p h
    unfold V2.promptPhone at h
    by_cases hc : (!(strStartsWith "237" (V2.normalizePhone input)) ||
        (V2.normalizePhone input).length != 12) = true
    · rw [if_pos hc] at h
      exact absurd h (by simp)
    · rw [if_neg hc] at h
      injection h with h
      subst h
      simp only [Bool.or_eq_true, Bool.not_eq_true', bne_iff_ne, not_or, Bool.not_eq_false,
        Decidable.not_not] at hc
      exact ⟨hc.1, hc.2, rfl⟩
  · intro p
    simp [V1.phoneValid, Bool.and_eq_true, beq_iff_eq]

/-- Witness for C5: the local form 670123456 is normalized to 237670123456
and accepted by the second variant, a raw 12-character entry 237670123456 —
whose normalized form already has prefix 237 and length 12 — is accepted
as well, and the first variant rejects the local form. -/
theorem C5_witness :
    V2.promptPhone "670123456" = .ok ("237" ++ stripSpaces (trimString "670123456")) ∧
    V2.promptPhone "237670123456" = .ok (V2.normalizePhone "237670123456") ∧
    V1.phoneValid "670123456" = false := by
  exact ⟨C5_phone_validation.1 "670123456" (by decide) (by decide),
    C5_phone_validation.2.1 "237670123456" (by decide) (by decide),
    C5_phone_validation.2.2.2.2⟩

/-- Counterexample to claim C5 as stated: the input 67012345a contains the
non-digit a, so the claim requires rejection, yet the second variant prepends
237 and accepts the 12-character string 23767012345a. -/
theorem C5_counterexample :
    Char.isDigit 'a' = false ∧
    V2.promptPhone "67012345a" = .ok "23767012345a" := by
  exact ⟨by decide, rfl⟩

/-- A non-empty all-digit string within the `int64` range parses under `atoi`
to its decimal value. -/
theorem atoi_all_digits (s : String) :
    s.data ≠ [] → s.data.all Char.isDigit = true →
    (digitsValue s.data : Int) ≤ 2 ^ 63 - 1 →
    atoi s = some ((digitsValue s.data : Nat) : Int) := by
  intro hne hdig hle
  unfold atoi
  match hsd : s.data with
  | [] => exact absurd hsd hne
  | c :: rest =>
    rw [hsd] at hdig hle
    have hdig' := hdig
    simp only [List.all_cons, Bool.and_eq_true] at hdig
    have hc : c.isDigit = true := hdig.1
    have hc1 : ¬(c = '-') := by
      intro he
      rw [he] at hc
      exact absurd hc (by decide)
    have hc2 : ¬(c = '+') := by
      intro he
      rw [he] at hc
      exact absurd hc (by decide)
    have hnonneg : (0 : Int) ≤ (digitsValue (c :: rest) : Int) := Int.natCast_nonneg _
    simp only [hc1, hc2, if_false, Option.isSome_none, Bool.false_eq_true, ite_false,
      List.isEmpty_cons, hdig', if_true, ite_true, if_false]
    have hrange : ¬((digitsValue (c :: rest) : Int) < -(2 ^ 63) ∨
        (digitsValue (c :: rest) : Int) > 2 ^ 63 - 1) := by
      push_neg
      norm_num at hle ⊢
      omega
    simp [hrange]
    refine ⟨by omega, ?_⟩
    norm_num at hle
    omega

/-- Claim C6 (amended): amount validation accepts exactly the strings parsing
under `strconv.Atoi` to a positive integer — every all-digit string whose
value is at most 2^63 − 1 (the `int64` bound enforced by `Atoi` itself) — and
the accepted value is placed unchanged in the collect request's amount field
(the original string in the first variant, the parsed integer in the second);
non-numeric strings, values ≤ 0, and digit strings beyond the `int64` range
are rejected. -/
theorem C6_amount_validation :
    (∀ (s : String) (n : Int), atoi s = some n → 0 < n →
      V1.validateAmount s = .ok s ∧ V2.promptAmount s = .ok n ∧
      (∀ ph d er, (V1.mkCollectRequest s ph d er).amount = s) ∧
      (∀ ph d er, (V2.mkCollectRequest n ph d er).amount = n)) ∧
    (∀ s : String, atoi s = none →
      V1.validateAmount s = .error "invalid amount. Must be a positive integer" ∧
      V2.promptAmount s = .error "amount must be a positive integer") ∧
    (∀ (s : String) (n : Int), atoi s = some n → n ≤ 0 →
      V1.validateAmount s = .error "invalid amount. Must be a positive integer" ∧
      V2.promptAmount s = .error "amount must be a positive integer") ∧
    (∀ s : String, s.data ≠ [] → s.data.all Char.isDigit = true →
      0 < digitsValue s.data → (digitsValue s.data : Int) ≤ 2 ^ 63 - 1 →
      V2.promptAmount s = .ok ((digitsValue s.data : Nat) : Int)) := by
  have hmain : ∀ (s : String) (n : Int), atoi s = some n → 0 < n →
      V1.validateAmount s = .ok s ∧ V2.promptAmount s = .ok n ∧
      (∀ ph d er, (V1.mkCollectRequest s ph d er).amount = s) ∧
      (∀ ph d er, (V2.mkCollectRequest n ph d er).amount = n) := by
    intro s n hs hn
    have hnle : ¬(n ≤ 0) := by omega
    refine ⟨?_, ?_, fun ph d er => rfl, fun ph d er => rfl⟩
    · simp [V1.validateAmount, hs, hnle]
    · simp [V2.promptAmount, hs, hnle]
  refine ⟨hmain, ?_, ?_, ?_⟩
  · intro s hs
    constructor
    · simp [V1.validateAmount, hs]
    · simp [V2.promptAmount, hs]
  · intro s n hs hn
    constructor
    · simp [V1.validateAmount, hs, hn]
    · simp [V2.promptAmount, hs, hn]
  · intro s hne hdig hpos hle
    have h := atoi_all_digits s hne hdig hle
    exact (hmain s _ h (by exact_mod_cast hpos)).2.1

/-- Witness for C6: the amount 1000 validates in both variants and round-trips
unchanged into the collect request. -/
theorem C6_witness :
    V1.validateAmount "1000" = .ok "1000" ∧ V2.promptAmount "1000" = .ok 1000 ∧
    (V1.mkCollectRequest "1000" "237670123456" "d" "TXN-1").amount = "1000" ∧
    (V2.mkCollectRequest 1000 "237670123456" "d" "TXN-1").amount = 1000 := by
  have h := C6_amount_validation.1 "1000" 1000 (by decide) (by decide)
  exact ⟨h.1, h.2.1, h.2.2.1 "237670123456" "d" "TXN-1", h.2.2.2 "237670123456" "d" "TXN-1"⟩

/-- Counterexample to claim C6 as stated: 9223372036854775808 = 2^63 is a
positive integer written in decimal, but `strconv.Atoi` rejects it as out of
the `int64` range, so amount validation fails — an upper bound is enforced. -/
theorem C6_counterexample :
    "9223372036854775808".data.all Char.isDigit = true ∧
    digitsValue "9223372036854775808".data = 2 ^ 63 ∧
    0 < digitsValue "9223372036854775808".data ∧
    atoi "9223372036854775808" = none ∧
    V1.validateAmount "9223372036854775808" =
      .error "invalid amount. Must be a positive integer" ∧
    V2.promptAmount "9223372036854775808" =
      .error "amount must be a positive integer" := by
  refine ⟨by decide, by decide, by decide, by decide, rfl, rfl⟩

/-- Claim C9 (amended): the second variant's `promptUser` re-prompts on empty
or whitespace-only input and returns the first non-empty trimmed line, and a
single malformed non-empty value is a terminal validation failure (the
validators return an error, with no retry loop); the first variant's
`promptUser` never re-prompts — it returns even an empty value, which then
fails validation terminally like any malformed value. -/
theorem C9_prompting :
    (∀ (line : String) (rest : List String), trimString line = "" →
      V2.promptUser (line :: rest) = V2.promptUser rest) ∧
    (∀ (line : String) (rest : List String), trimString line ≠ "" →
      V2.promptUser (line :: rest) = some (trimString line, rest)) ∧
    (∀ (line : String) (rest : List String),
      V1.promptUser (line :: rest) = some (trimString line, rest)) ∧
    (∀ input : String,
      ¬(strStartsWith "237" (V2.normalizePhone input) = true ∧
        (V2.normalizePhone input).length = 12) →
      V2.promptPhone input = .error "invalid phone number format") ∧
    V1.phoneValid "" = false := by
  refine ⟨?_, ?_, fun line rest => rfl, ?_, by decide⟩
  · intro line rest h
    simp [V2.promptUser, h]
  · intro line rest h
    simp [V2.promptUser, h]
  · intro input hno
    unfold V2.promptPhone
    have hcond : (!(strStartsWith "237" (V2.normalizePhone input)) ||
        (V2.normalizePhone input).length != 12) = true := by
      by_cases hp : strStartsWith "237" (V2.normalizePhone input) = true
      · have hl : (V2.normalizePhone input).length ≠ 12 := fun hl => hno ⟨hp, hl⟩
        simp [hp, hl]
      · rw [Bool.not_eq_true] at hp
        simp [hp]
    rw [if_pos hcond]

/-- Witness for C9: a whitespace-only line makes the second variant's prompt
move to the next line, a non-empty line is returned trimmed, the first
variant returns the line unconditionally, and a malformed non-empty phone
value is rejected outright. -/
theorem C9_witness :
    V2.promptUser [" ", "x"] = V2.promptUser ["x"] ∧
    V2.promptUser ["x", "y"] = some ("x", ["y"]) ∧
    V1.promptUser ["x", "y"] = some (trimString "x", ["y"]) ∧
    V2.promptPhone "abc" = .error "invalid phone number format" := by
  refine ⟨C9_prompting.1 " " ["x"] (by decide), ?_, C9_prompting.2.2.1 "x" ["y"], ?_⟩
  · have h := C9_prompting.2.1 "x" ["y"] (by decide)
    rw [h]
    rfl
  · refine C9_prompting.2.2.2.1 "abc" ?_
    intro hc
    exact absurd hc.2 (by decide)

/-- Counterexample to claim C9 as stated: on an empty line the first variant's
`promptUser` does not re-prompt — it returns the empty value (the second
variant consumes the line and reads the next one), which then fails phone
validation exactly like a malformed value. -/
theorem C9_counterexample :
    V1.promptUser ["", "237670123456"] = some ("", ["237670123456"]) ∧
    V2.promptUser ["", "237670123456"] = some ("237670123456", []) ∧
    V1.phoneValid "" = false := by
  refine ⟨rfl, rfl, by decide⟩
